import Mathlib

/-!
Shallow embedding of the client-side state-synchronization core of the
weather dashboard (the `App` component): persisted-location loading,
search handling, location selection, and the forecast fetch cycle with
its activity flag, repeating auto-refresh and sticky day selection.

Pure synchronous handlers are embedded as Lean functions on an explicit
application-state record.  The asynchronous fetch cycle is embedded as a
small-step transition system: each `await` boundary splits an operation
into a synchronous prefix (`fetchWeatherPhase1`) and a completion
(`fetchWeatherResolve`), and in-flight requests are tracked in a pending
list tagged with the cycle generation that issued them.
-/

/-- Measurement system: the `MeasurementSystem` union type, 'metric' or
'imperial'. -/
inductive MeasurementSystem where
  | metric
  | imperial
deriving DecidableEq

/-- Search status union type: 'idle' | 'loading' | 'error' | 'no-results'. -/
inductive SearchStatus where
  | idle
  | loading
  | error
  | noResults
deriving DecidableEq

/-- Forecast status union type: 'idle' | 'loading' | 'ready' | 'error'. -/
inductive WeatherStatus where
  | idle
  | loading
  | ready
  | error
deriving DecidableEq

/-- A geocoding match: `LocationMatch` with fields id, name, admin1?,
country, latitude, longitude, timezone.  Coordinates are embedded as exact
rationals; the core only copies them, never computes with them. -/
structure LocationMatch where
  id : String
  name : String
  admin1 : Option String
  country : String
  latitude : Rat
  longitude : Rat
  timezone : String
deriving DecidableEq

/-- Modelled from the spec: the `WeatherData` record (declared in
src/types/weather, which is not under src/).  Spec section 3: "{location
snapshot, current conditions, daily forecast list, hourly-by-day mapping,
dayOrder (chronological list of day keys), units}".  The state core reads
only `dayOrder`; the current-conditions, daily and hourly payloads are
never inspected by it, so they are carried as abstract tokens, which keeps
whole-value equality of `WeatherData` meaningful. -/
structure WeatherData where
  location : LocationMatch
  current : Nat
  daily : List Nat
  hourlyByDay : List (String × Nat)
  dayOrder : List String
  units : MeasurementSystem
deriving DecidableEq

/-- Modelled from the spec: well-formedness of the external forecast
adapter's payload (`fetchWeatherForecast` lives in src/lib/weather, which
is not under src/).  Spec sections 3 and 6 describe `dayOrder` as a
"chronological list of day keys" used as date keys, so every day key is a
nonempty string. -/
def WeatherData.validDayKeys (w : WeatherData) : Prop :=
  ∀ d ∈ w.dayOrder, d ≠ ""

instance (w : WeatherData) : Decidable w.validDayKeys := by
  unfold WeatherData.validDayKeys
  infer_instance

/-- The hardcoded `DEFAULT_LOCATION` constant. -/
def DEFAULT_LOCATION : LocationMatch :=
  { id := "5391959"
    name := "San Francisco"
    admin1 := some "California"
    country := "United States"
    latitude := (377749 : Rat) / 10000
    longitude := (-1224194 : Rat) / 10000
    timezone := "America/Los_Angeles" }

/-- What a read of the `selectedLocation` storage key can yield: the read
itself may fail (storage disabled), the key may be missing (`getItem`
returns null), or it holds a raw string that is empty, fails to parse as
JSON, or parses to a `LocationMatch`. -/
inductive StoredJSON where
  | emptyStr
  | unparseable
  | parsesTo (l : LocationMatch)
deriving DecidableEq

/-- Outcome of `localStorage.getItem('selectedLocation')`. -/
inductive RawLocRead where
  | throwOnRead
  | missing
  | raw (v : StoredJSON)
deriving DecidableEq

/-- Outcome of `localStorage.getItem('searchTerm')`. -/
inductive RawTermRead where
  | throwOnRead
  | missing
  | present (t : String)
deriving DecidableEq

/-- `JSON.parse` applied to the raw stored string: the empty string and
corrupt contents throw a SyntaxError, anything else yields the parsed
location (the code performs no shape validation on the parsed value). -/
def parseLocationJSON : StoredJSON → Except String LocationMatch
  | .emptyStr => .error "Unexpected end of JSON input"
  | .unparseable => .error "SyntaxError"
  | .parsesTo l => .ok l

/-- `loadSavedLocation`: inside try/catch, read the key; a truthy saved
string is parsed and returned; a falsy one (null or the empty string)
falls through; any thrown failure (storage access or JSON.parse) is
caught and logged; all fall-through paths return `DEFAULT_LOCATION`. -/
def loadSavedLocation (r : RawLocRead) : LocationMatch :=
  let attempt : Except String (Option LocationMatch) :=
    match r with
    | .throwOnRead => .error "storage access denied"
    | .missing => .ok none
    | .raw .emptyStr => .ok none
    | .raw v => (parseLocationJSON v).map some
  match attempt with
  | .ok (some l) => l
  | .ok none => DEFAULT_LOCATION
  | .error _ => DEFAULT_LOCATION

/-- The compiled-in fallback search text, built from `DEFAULT_LOCATION`. -/
def defaultSearchTerm : String :=
  DEFAULT_LOCATION.name ++ ", " ++ DEFAULT_LOCATION.country

/-- `loadSavedSearchTerm`: inside try/catch, return the saved string when
it is truthy (present and nonempty); otherwise fall back to the default
location's canonical search string. -/
def loadSavedSearchTerm : RawTermRead → String
  | .throwOnRead => defaultSearchTerm
  | .missing => defaultSearchTerm
  | .present t => if t = "" then defaultSearchTerm else t

/-- The React state of the `App` component (the useState cells). -/
structure AppState where
  searchTerm : String
  searchResults : List LocationMatch
  searchStatus : SearchStatus
  searchError : Option String
  selectedLocation : LocationMatch
  units : MeasurementSystem
  weatherData : Option WeatherData
  weatherStatus : WeatherStatus
  weatherError : Option String
  selectedDay : Option String
deriving DecidableEq

/-- The defensive copy made at the top of `handleLocationSelection`: a new
object with the same seven fields. -/
def defensiveCopy (l : LocationMatch) : LocationMatch :=
  { id := l.id
    name := l.name
    country := l.country
    admin1 := l.admin1
    latitude := l.latitude
    longitude := l.longitude
    timezone := l.timezone }

/-- The query text written on selection: name, followed by ", country"
only when `country` is truthy (a nonempty string). -/
def locationString (l : LocationMatch) : String :=
  l.name ++ (if l.country = "" then "" else ", " ++ l.country)

/-- The React-state part of `handleLocationSelection`: publish the copied
location, rewrite the query text, reset search status to idle and clear
the result list.  (The storage writes are handled at the system level.) -/
def handleLocationSelectionApp (location : LocationMatch) (s : AppState) :
    AppState :=
  let newLocation := defensiveCopy location
  { s with
    selectedLocation := newLocation
    searchTerm := locationString newLocation
    searchStatus := .idle
    searchResults := [] }

/-- Outcome of the external `geocodeLocation` request. -/
inductive GeocodeOutcome where
  | success (results : List LocationMatch)
  | failure (emsg : Option String)
deriving DecidableEq

/-- Whitespace trimming from both ends, as `String.prototype.trim` does:
drop leading and trailing whitespace characters.  Defined structurally on
the character list so that it evaluates inside the kernel. -/
def jsTrim (s : String) : String :=
  String.mk
    (((s.data.dropWhile Char.isWhitespace).reverse.dropWhile
        Char.isWhitespace).reverse)

/-- The trimmed-empty branch of `handleSearch`: status 'no-results',
results cleared, forecast cleared (WeatherData null, forecast status
'idle'); the function returns before any request is issued. -/
def handleSearchEmpty (s : AppState) : AppState :=
  { s with
    searchStatus := .noResults
    searchResults := []
    weatherData := none
    weatherStatus := .idle }

/-- The synchronous prefix of the non-empty branch of `handleSearch`,
executed before the geocode request: status 'loading', error cleared. -/
def handleSearchStart (s : AppState) : AppState :=
  { s with searchStatus := .loading, searchError := none }

/-- The completion of the non-empty branch of `handleSearch`: zero
matches clear everything back to 'no-results'; one or more matches are
published with status 'idle'; a failure stores the extracted message (or
the 'Unknown error' fallback) and clears the forecast. -/
def handleSearchResolve (geo : GeocodeOutcome) (s : AppState) : AppState :=
  match geo with
  | .success results =>
      if results.isEmpty then
        { s with
          searchResults := []
          searchStatus := .noResults
          weatherData := none
          weatherStatus := .idle }
      else
        { s with searchResults := results, searchStatus := .idle }
  | .failure emsg =>
      { s with
        searchStatus := .error
        searchError := some (emsg.getD "Unknown error")
        weatherData := none
        weatherStatus := .idle }

/-- `handleSearch` on a state, given the geocode outcome the adapter
would return; the second component counts geocode requests issued. -/
def handleSearch (geo : GeocodeOutcome) (s : AppState) : AppState × Nat :=
  if jsTrim s.searchTerm = "" then (handleSearchEmpty s, 0)
  else (handleSearchResolve geo (handleSearchStart s), 1)

/-- Outcome of the external `fetchWeatherForecast` request: a payload, or
a thrown value carrying `some m` when it is an Error with message m. -/
inductive FetchOutcome where
  | success (data : WeatherData)
  | failure (emsg : Option String)
deriving DecidableEq

/-- The synchronous prefix of `fetchWeather`, run before the request is
issued: only an initial (non-auto-refresh) fetch touches the status,
setting it to 'loading'; the error message is cleared unconditionally. -/
def fetchWeatherPhase1 (isAutoRefresh : Bool) (s : AppState) : AppState :=
  let s := if !isAutoRefresh then { s with weatherStatus := .loading } else s
  { s with weatherError := none }

/-- The sticky-selection recomputation run on auto-refresh success:
`prevDay && data.dayOrder.includes(prevDay)` keeps the previous day (note
the JavaScript truthiness test: the empty string is falsy), otherwise
`data.dayOrder[0] ?? null`. -/
def stickyDay (prevDay : Option String) (dayOrder : List String) :
    Option String :=
  match prevDay with
  | some d => if d ≠ "" ∧ dayOrder.contains d then some d else dayOrder.head?
  | none => dayOrder.head?

/-- The completion of `fetchWeather` in the case where its cycle is still
active: on success the payload replaces WeatherData, the selected day is
reset to `dayOrder[0] ?? null` on an initial fetch or recomputed by the
sticky policy on auto-refresh, and status becomes 'ready'; on failure only
an initial fetch touches state, setting status 'error' with the captured
message (auto-refresh failures are swallowed). -/
def fetchWeatherResolve (isAutoRefresh : Bool) (o : FetchOutcome)
    (s : AppState) : AppState :=
  match o with
  | .success data =>
      let s := { s with weatherData := some data }
      let s :=
        if !isAutoRefresh then { s with selectedDay := data.dayOrder.head? }
        else { s with selectedDay := stickyDay s.selectedDay data.dayOrder }
      { s with weatherStatus := .ready }
  | .failure emsg =>
      if !isAutoRefresh then
        { s with
          weatherStatus := .error
          weatherError := some (emsg.getD "Unable to load forecast") }
      else s

/-- One whole fetch attempt that resumes while its cycle is still active
and with no other completion interleaved between its two halves: the
synchronous prefix followed by the completion. -/
def fetchWeatherAttempt (isAutoRefresh : Bool) (o : FetchOutcome)
    (s : AppState) : AppState :=
  fetchWeatherResolve isAutoRefresh o (fetchWeatherPhase1 isAutoRefresh s)

/-- An in-flight forecast request: the cycle generation whose effect
closure issued it (determining which `isActive` flag its completion will
read) and whether it was issued by the auto-refresh interval. -/
structure Fetch where
  cycle : Nat
  isAuto : Bool
deriving DecidableEq

/-- The whole system: React state, the two storage keys, the current
effect-cycle generation, whether the component is still mounted and its
current cycle's flag uncleared (`alive`), whether a repeating auto-refresh
interval is installed, whether a dependency change has been committed but
its effect has not yet re-run, the in-flight forecast requests, and a
count of geocode requests issued. -/
structure SysState where
  app : AppState
  storedLocation : RawLocRead
  storedTerm : RawTermRead
  cycle : Nat
  alive : Bool
  intervalOn : Bool
  effectPending : Bool
  pending : List Fetch
  geocodeCalls : Nat
deriving DecidableEq

/-- The React state right after mount, as initialized from storage. -/
def initAppState (locRead : RawLocRead) (termRead : RawTermRead) :
    AppState :=
  { searchTerm := loadSavedSearchTerm termRead
    searchResults := []
    searchStatus := .idle
    searchError := none
    selectedLocation := loadSavedLocation locRead
    units := .metric
    weatherData := none
    weatherStatus := .idle
    weatherError := none
    selectedDay := none }

/-- The system right after mount: the forecast effect is scheduled
(`effectPending`) but has not run, so no interval is installed and no
request is in flight. -/
def initState (locRead : RawLocRead) (termRead : RawTermRead) : SysState :=
  { app := initAppState locRead termRead
    storedLocation := locRead
    storedTerm := termRead
    cycle := 0
    alive := true
    intervalOn := false
    effectPending := true
    pending := []
    geocodeCalls := 0 }

/-- The events the system reacts to.  UI events carry the data the user
supplies; completions carry the adversarially-chosen adapter outcome.
`selectResult` carries whether the storage writes succeed (a failure is
caught and logged, persisting neither key).  `effectRun` is the forecast
effect re-running after a dependency change (cleanup of the old cycle
followed by the new cycle's setup); `tick` is the repeating interval
firing; `reload` is the page-reload timer. -/
inductive Event where
  | editSearchTerm (t : String)
  | submit (geo : GeocodeOutcome)
  | selectResult (location : LocationMatch) (storeOk : Bool)
  | changeUnits (u : MeasurementSystem)
  | effectRun
  | tick
  | resolve (f : Fetch) (o : FetchOutcome)
  | selectDay (d : String)
  | unmount
  | reload
deriving DecidableEq

/-- The state transformation of each event. -/
def applyEvent : Event → SysState → SysState
  | .editSearchTerm t, s => { s with app := { s.app with searchTerm := t } }
  | .submit geo, s =>
      let r := handleSearch geo s.app
      { s with app := r.1, geocodeCalls := s.geocodeCalls + r.2 }
  | .selectResult location storeOk, s =>
      { s with
        app := handleLocationSelectionApp location s.app
        effectPending := true
        storedLocation :=
          if storeOk then .raw (.parsesTo (defensiveCopy location))
          else s.storedLocation
        storedTerm :=
          if storeOk then .present (locationString (defensiveCopy location))
          else s.storedTerm }
  | .changeUnits u, s =>
      if u = s.app.units then s
      else { s with app := { s.app with units := u }, effectPending := true }
  | .effectRun, s =>
      { s with
        cycle := s.cycle + 1
        intervalOn := true
        effectPending := false
        app := fetchWeatherPhase1 false s.app
        pending := s.pending ++ [⟨s.cycle + 1, false⟩] }
  | .tick, s =>
      { s with
        app := fetchWeatherPhase1 true s.app
        pending := s.pending ++ [⟨s.cycle, true⟩] }
  | .resolve f o, s =>
      if f.cycle = s.cycle ∧ s.alive = true then
        { s with
          pending := s.pending.erase f
          app := fetchWeatherResolve f.isAuto o s.app }
      else { s with pending := s.pending.erase f }
  | .selectDay d, s => { s with app := { s.app with selectedDay := some d } }
  | .unmount, s => { s with alive := false, intervalOn := false }
  | .reload, s => initState s.storedLocation s.storedTerm

/-- When an event can fire.  UI events require the component to be
mounted; `effectRun` requires a committed dependency change; `tick`
requires an installed interval; a completion requires its request to be in
flight.  `selectDay` is offered only from the rendered forecast, which is
shown only in the ready state and whose day options come from the live
`dayOrder` (per the hourly-forecast component; the daily list's options
are modelled from the spec, section 4.4: selectable days are only ever
offered from the live dayOrder). -/
def Enabled : Event → SysState → Prop
  | .editSearchTerm _, s => s.alive = true
  | .submit _, s => s.alive = true
  | .selectResult _ _, s => s.alive = true
  | .changeUnits _, s => s.alive = true
  | .effectRun, s => s.alive = true ∧ s.effectPending = true
  | .tick, s => s.intervalOn = true
  | .resolve f _, s => f ∈ s.pending
  | .selectDay d, s =>
      s.alive = true ∧ s.app.weatherStatus = .ready ∧
        ∃ w, s.app.weatherData = some w ∧ d ∈ w.dayOrder
  | .unmount, s => s.alive = true
  | .reload, _ => True

/-- The states the system can reach from a fresh mount over any storage
content, by any enabled event sequence. -/
inductive Reachable : SysState → Prop where
  | init (locRead : RawLocRead) (termRead : RawTermRead) :
      Reachable (initState locRead termRead)
  | step (e : Event) (s : SysState) (hs : Reachable s) (he : Enabled e s) :
      Reachable (applyEvent e s)

/-- A list whose head is `d` contains `d`. -/
theorem mem_of_head_eq_some {l : List String} {d : String}
    (h : l.head? = some d) : d ∈ l := by
  cases l with
  | nil => simp at h
  | cons a t =>
      simp [List.head?] at h
      simp [h]

/-- The sticky-selection recomputation only ever yields a member of the
new day order. -/
theorem stickyDay_mem {prev : Option String} {order : List String}
    {d : String} (h : stickyDay prev order = some d) : d ∈ order := by
  cases prev with
  | none =>
      simp only [stickyDay] at h
      exact mem_of_head_eq_some h
  | some p =>
      simp only [stickyDay] at h
      by_cases hc : p ≠ "" ∧ order.contains p = true
      · rw [if_pos hc] at h
        cases h
        simpa using hc.2
      · rw [if_neg hc] at h
        exact mem_of_head_eq_some h

/-- The day-selection consistency invariant: in the ready state there is a
current payload, and any selected day is one of its day keys. -/
def WeatherInv (a : AppState) : Prop :=
  a.weatherStatus = .ready →
    ∃ w, a.weatherData = some w ∧
      ∀ d, a.selectedDay = some d → d ∈ w.dayOrder

/-- Every enabled event preserves the day-selection consistency
invariant. -/
theorem weatherInv_step (e : Event) (s : SysState) (he : Enabled e s)
    (ih : WeatherInv s.app) : WeatherInv (applyEvent e s).app := by
  cases e with
  | editSearchTerm t => simpa [applyEvent, WeatherInv] using ih
  | submit geo =>
      show WeatherInv (handleSearch geo s.app).1
      unfold handleSearch
      by_cases ht : jsTrim s.app.searchTerm = ""
      · rw [if_pos ht]
        intro hready
        simp [handleSearchEmpty] at hready
      · rw [if_neg ht]
        cases geo with
        | success results =>
            by_cases hr : results.isEmpty
            · intro hready
              simp [handleSearchResolve, hr, handleSearchStart] at hready
            · intro hready
              have hready' : s.app.weatherStatus = .ready := by
                simpa [handleSearchResolve, hr, handleSearchStart]
                  using hready
              obtain ⟨w, hw, hd⟩ := ih hready'
              exact ⟨w, by
                simpa [handleSearchResolve, hr, handleSearchStart] using hw,
                fun d hsel => hd d (by
                  simpa [handleSearchResolve, hr, handleSearchStart]
                    using hsel)⟩
        | failure emsg =>
            intro hready
            simp [handleSearchResolve, handleSearchStart] at hready
  | selectResult location storeOk =>
      intro hready
      have hready' : s.app.weatherStatus = .ready := by
        simpa [applyEvent, handleLocationSelectionApp] using hready
      obtain ⟨w, hw, hd⟩ := ih hready'
      exact ⟨w, by simpa [applyEvent, handleLocationSelectionApp] using hw,
        fun d hsel => hd d (by
          simpa [applyEvent, handleLocationSelectionApp] using hsel)⟩
  | changeUnits u =>
      by_cases hu : u = s.app.units
      · simpa [applyEvent, hu] using ih
      · intro hready
        have hready' : s.app.weatherStatus = .ready := by
          simpa [applyEvent, hu] using hready
        obtain ⟨w, hw, hd⟩ := ih hready'
        exact ⟨w, by simpa [applyEvent, hu] using hw,
          fun d hsel => hd d (by simpa [applyEvent, hu] using hsel)⟩
  | effectRun =>
      intro hready
      simp [applyEvent, fetchWeatherPhase1] at hready
  | tick =>
      intro hready
      have hready' : s.app.weatherStatus = .ready := by
        simpa [applyEvent, fetchWeatherPhase1] using hready
      obtain ⟨w, hw, hd⟩ := ih hready'
      exact ⟨w, by simpa [applyEvent, fetchWeatherPhase1] using hw,
        fun d hsel => hd d (by
          simpa [applyEvent, fetchWeatherPhase1] using hsel)⟩
  | resolve f o =>
      by_cases hact : f.cycle = s.cycle ∧ s.alive = true
      · have hred : (applyEvent (.resolve f o) s).app =
            fetchWeatherResolve f.isAuto o s.app := by
          simp [applyEvent, hact]
        rw [hred]
        cases o with
        | success data =>
            intro _
            refine ⟨data, ?_, ?_⟩
            · cases hb : f.isAuto <;>
                simp [fetchWeatherResolve, hb]
            · intro d hsel
              cases hb : f.isAuto with
              | false =>
                  simp [fetchWeatherResolve, hb] at hsel
                  exact mem_of_head_eq_some hsel
              | true =>
                  simp [fetchWeatherResolve, hb] at hsel
                  exact stickyDay_mem hsel
        | failure emsg =>
            intro hready
            cases hb : f.isAuto with
            | false => simp [fetchWeatherResolve, hb] at hready
            | true =>
                have hready' : s.app.weatherStatus = .ready := by
                  simpa [fetchWeatherResolve, hb] using hready
                obtain ⟨w, hw, hd⟩ := ih hready'
                exact ⟨w, by simpa [fetchWeatherResolve, hb] using hw,
                  fun d hsel => hd d (by
                    simpa [fetchWeatherResolve, hb] using hsel)⟩
      · have hred : (applyEvent (.resolve f o) s).app = s.app := by
          simp [applyEvent, hact]
        rw [hred]
        exact ih
  | selectDay d =>
      intro hready
      obtain ⟨_, _, w, hw, hd⟩ := he
      refine ⟨w, by simpa [applyEvent] using hw, ?_⟩
      intro d' hsel
      simp [applyEvent] at hsel
      subst hsel
      exact hd
  | unmount => simpa [applyEvent] using ih
  | reload =>
      intro hready
      simp [applyEvent, initState, initAppState] at hready

/-- The day-selection consistency invariant holds in every reachable
state. -/
theorem reachable_weatherInv (s : SysState) (hs : Reachable s) :
    WeatherInv s.app := by
  induction hs with
  | init locRead termRead =>
      intro h
      simp [initState, initAppState] at h
  | step e s hs he ih => exact weatherInv_step e s he ih

/-- A repeating auto-refresh interval is only ever installed while the
component is mounted with its current cycle's flag uncleared. -/
theorem reachable_interval_alive (s : SysState) (hs : Reachable s) :
    s.intervalOn = true → s.alive = true := by
  induction hs with
  | init locRead termRead => simp [initState]
  | step e s hs he ih =>
      cases e with
      | editSearchTerm t => simpa [applyEvent] using ih
      | submit geo => simpa [applyEvent] using ih
      | selectResult location storeOk => simpa [applyEvent] using ih
      | changeUnits u =>
          by_cases hu : u = s.app.units <;> simpa [applyEvent, hu] using ih
      | effectRun =>
          intro _
          simpa [applyEvent] using he.1
      | tick => simpa [applyEvent] using ih
      | resolve f o =>
          by_cases hact : f.cycle = s.cycle ∧ s.alive = true
          · simp only [applyEvent, if_pos hact]
            exact ih
          · simp only [applyEvent, if_neg hact]
            exact ih
      | selectDay d => simpa [applyEvent] using ih
      | unmount => simp [applyEvent]
      | reload => simp [applyEvent, initState]

/-- A fresh mount over empty storage. -/
def sysInit0 : SysState := initState RawLocRead.missing RawTermRead.missing

/-- The mount effect has run: cycle 1 started, its initial fetch is in
flight, the auto-refresh interval is installed. -/
def sysAfterEffect : SysState := applyEvent .effectRun sysInit0

/-- The interval has fired once while cycle 1's initial fetch is still in
flight: both requests are now pending. -/
def sysAfterTick : SysState := applyEvent .tick sysAfterEffect

/-- Cycle 1's initial fetch has failed with message "boom": the visible
state is 'error' with that message. -/
def sysInitialFailed : SysState :=
  applyEvent (.resolve ⟨1, false⟩ (.failure (some "boom"))) sysAfterEffect

/-- A sample well-formed forecast payload with two day keys. -/
def sampleData1 : WeatherData :=
  { location := DEFAULT_LOCATION
    current := 0
    daily := []
    hourlyByDay := []
    dayOrder := ["2025-01-01", "2025-01-02"]
    units := .metric }

/-- Cycle 1's initial fetch has succeeded with `sampleData1`: the state is
ready and the first day key is selected. -/
def sysReady : SysState :=
  applyEvent (.resolve ⟨1, false⟩ (.success sampleData1)) sysAfterEffect

/-- A location has been selected while cycle 1's requests were in flight
and the effect has re-run: cycle 2 is now current, and cycle 1's requests
are stale. -/
def sysSuperseded : SysState :=
  applyEvent .effectRun
    (applyEvent (.selectResult DEFAULT_LOCATION true) sysAfterTick)

/-- The query text has been edited to whitespace only. -/
def sysBlankQuery : SysState :=
  applyEvent (.editSearchTerm "   ") sysInit0

/-- The fresh-mount state is reachable. -/
theorem reachable_sysInit0 : Reachable sysInit0 :=
  Reachable.init RawLocRead.missing RawTermRead.missing

/-- The post-effect state is reachable. -/
theorem reachable_sysAfterEffect : Reachable sysAfterEffect :=
  Reachable.step .effectRun sysInit0 reachable_sysInit0 ⟨rfl, rfl⟩

/-- The overlapping-requests state is reachable. -/
theorem reachable_sysAfterTick : Reachable sysAfterTick :=
  Reachable.step .tick sysAfterEffect reachable_sysAfterEffect rfl

/-- The failed-initial-fetch state is reachable. -/
theorem reachable_sysInitialFailed : Reachable sysInitialFailed :=
  Reachable.step (.resolve ⟨1, false⟩ (.failure (some "boom")))
    sysAfterEffect reachable_sysAfterEffect
    (show Fetch.mk 1 false ∈ sysAfterEffect.pending by decide)

/-- The ready state is reachable. -/
theorem reachable_sysReady : Reachable sysReady :=
  Reachable.step (.resolve ⟨1, false⟩ (.success sampleData1))
    sysAfterEffect reachable_sysAfterEffect
    (show Fetch.mk 1 false ∈ sysAfterEffect.pending by decide)

/-- C1: whenever the forecast status is 'ready', the selected day is a
member of the current WeatherData's dayOrder: in every reachable state
with status 'ready' a current payload exists and every selected day lies
in its dayOrder.  When that dayOrder is empty the selected day is `none`
(an initial fetch sets `dayOrder[0] ?? null`), so the membership condition
holds for every day the state actually selects — including for a ready
state reached via an initial fetch whose dayOrder is empty. -/
theorem c1_ready_selected_day_mem_dayOrder (s : SysState)
    (hs : Reachable s) (hready : s.app.weatherStatus = .ready) :
    ∃ w, s.app.weatherData = some w ∧
      ∀ d, s.app.selectedDay = some d → d ∈ w.dayOrder :=
  reachable_weatherInv s hs hready

/-- C1 witness: the concrete reachable ready state `sysReady`. -/
theorem c1_ready_selected_day_mem_dayOrder_witness :
    ∃ w, sysReady.app.weatherData = some w ∧
      ∀ d, sysReady.app.selectedDay = some d → d ∈ w.dayOrder :=
  c1_ready_selected_day_mem_dayOrder sysReady reachable_sysReady (by decide)

/-- C2 counterexample: in the reachable state where cycle 1's initial
fetch failed with "boom", a failing auto-refresh attempt preserves status
and WeatherData but changes the weather error message (the attempt clears
it to null before the request is issued and failure does not restore it),
so the attempt does not leave all three values exactly as before. -/
theorem c2_counterexample :
    Reachable sysInitialFailed ∧
    sysInitialFailed.app.weatherError = some "boom" ∧
    (fetchWeatherAttempt true (.failure (some "boom"))
        sysInitialFailed.app).weatherStatus =
      sysInitialFailed.app.weatherStatus ∧
    (fetchWeatherAttempt true (.failure (some "boom"))
        sysInitialFailed.app).weatherData =
      sysInitialFailed.app.weatherData ∧
    (fetchWeatherAttempt true (.failure (some "boom"))
        sysInitialFailed.app).weatherError ≠
      sysInitialFailed.app.weatherError :=
  ⟨reachable_sysInitialFailed, by decide, by decide, by decide, by decide⟩

/-- C2 (amended): a failing auto-refresh attempt leaves the weather
status and the WeatherData exactly equal to their pre-attempt values, but
the weather error message is cleared to null at the start of the attempt
(before the request is issued) and is not restored on failure, so it ends
as `none` rather than its pre-attempt value. -/
theorem c2_amended_auto_failure (a : AppState) (emsg : Option String) :
    (fetchWeatherAttempt true (.failure emsg) a).weatherStatus =
      a.weatherStatus ∧
    (fetchWeatherAttempt true (.failure emsg) a).weatherData =
      a.weatherData ∧
    (fetchWeatherAttempt true (.failure emsg) a).weatherError = none := by
  simp [fetchWeatherAttempt, fetchWeatherPhase1, fetchWeatherResolve]

/-- C3: a completion whose owning cycle has been torn down (its flag
cleared because the cycle was superseded by a dependency change, or the
component unmounted) mutates nothing: the entire system state is
unchanged except that the request is no longer in flight. -/
theorem c3_stale_resolve_mutates_nothing (s : SysState) (f : Fetch)
    (o : FetchOutcome)
    (hstale : ¬(f.cycle = s.cycle ∧ s.alive = true)) :
    applyEvent (.resolve f o) s =
      { s with pending := s.pending.erase f } := by
  simp [applyEvent, hstale]

/-- C3 witness: in the concrete state where cycle 2 has superseded cycle
1, a completion of cycle 1's initial fetch changes nothing but the
in-flight list. -/
theorem c3_stale_resolve_mutates_nothing_witness :
    ¬((Fetch.mk 1 false).cycle = sysSuperseded.cycle ∧
        sysSuperseded.alive = true) ∧
    applyEvent (.resolve ⟨1, false⟩ (.failure none)) sysSuperseded =
      { sysSuperseded with
          pending := sysSuperseded.pending.erase ⟨1, false⟩ } :=
  ⟨by decide, c3_stale_resolve_mutates_nothing sysSuperseded ⟨1, false⟩
    (.failure none) (by decide)⟩

/-- Over a day order with well-formed (nonempty) day keys, the sticky
recomputation is exactly the sticky-selection policy: keep the previous
day when the new day order still contains it, otherwise fall back to the
new day order's first element. -/
theorem stickyDay_eq_of_valid {prev : Option String} {order : List String}
    (hvalid : ∀ k ∈ order, k ≠ "") :
    stickyDay prev order =
      (match prev with
       | some p => if p ∈ order then some p else order.head?
       | none => order.head?) := by
  cases prev with
  | none => simp [stickyDay]
  | some p =>
      simp only [stickyDay]
      by_cases hp : p ∈ order
      · rw [if_pos ⟨hvalid p hp, by simpa using hp⟩, if_pos hp]
      · rw [if_neg hp, if_neg]
        rintro ⟨-, hc⟩
        exact hp (by simpa using hc)

/-- C4: a successful auto-refresh attempt replaces WeatherData wholesale
and recomputes the selected day by the sticky-selection policy: the
previous selected day is kept exactly when the new payload's dayOrder
still contains it, and otherwise the selection falls back to the new
dayOrder's first element (`dayOrder[0] ?? null`).  The hypothesis is the
well-formedness of the external adapter's day keys (nonempty date keys,
modelled from the spec since src/lib/weather is not under src/); without
it the JavaScript truthiness test on the previous day would diverge from
the policy only at an empty-string day key. -/
theorem c4_auto_refresh_sticky_selection (a : AppState)
    (data : WeatherData) (hvalid : data.validDayKeys) :
    (fetchWeatherAttempt true (.success data) a).weatherData =
      some data ∧
    (fetchWeatherAttempt true (.success data) a).selectedDay =
      (match a.selectedDay with
       | some p => if p ∈ data.dayOrder then some p else data.dayOrder.head?
       | none => data.dayOrder.head?) := by
  constructor
  · simp [fetchWeatherAttempt, fetchWeatherPhase1, fetchWeatherResolve]
  · have h := @stickyDay_eq_of_valid a.selectedDay data.dayOrder hvalid
    simpa [fetchWeatherAttempt, fetchWeatherPhase1, fetchWeatherResolve]
      using h

/-- C4 witness: from the concrete ready state (selected day
"2025-01-01"), an auto-refresh success whose dayOrder still contains that
day keeps it selected. -/
theorem c4_auto_refresh_sticky_selection_witness :
    sampleData1.validDayKeys ∧
    ((fetchWeatherAttempt true (.success sampleData1)
        sysReady.app).weatherData = some sampleData1 ∧
      (fetchWeatherAttempt true (.success sampleData1)
          sysReady.app).selectedDay =
        (match sysReady.app.selectedDay with
         | some p =>
             if p ∈ sampleData1.dayOrder then some p
             else sampleData1.dayOrder.head?
         | none => sampleData1.dayOrder.head?)) :=
  ⟨by decide, c4_auto_refresh_sticky_selection sysReady.app sampleData1
    (by decide)⟩

/-- C5 counterexample: the claim says no auto-refresh request is issued
while the cycle's initial fetch is still in flight; but the repeating
interval is installed at cycle start without awaiting the initial fetch,
so the reachable state `sysAfterTick` has cycle 1's auto-refresh request
in flight while cycle 1's initial fetch is also still in flight. -/
theorem c5_counterexample :
    Reachable sysAfterTick ∧
    Fetch.mk 1 false ∈ sysAfterTick.pending ∧
    Fetch.mk 1 true ∈ sysAfterTick.pending ∧
    sysAfterTick.cycle = 1 :=
  ⟨reachable_sysAfterTick, by decide, by decide, by decide⟩

/-- C5 (amended): the repeating auto-refresh interval is installed when a
cycle starts, concurrently with the initial fetch rather than after it
completes: in any reachable state with the interval installed the
component is still mounted, a tick is enabled regardless of whether the
initial fetch has completed, and it issues the current cycle's
auto-refresh request while leaving every in-flight request (the initial
fetch included) in flight. -/
theorem c5_amended_tick_concurrent_with_initial (s : SysState)
    (hs : Reachable s) (hint : s.intervalOn = true) :
    Enabled .tick s ∧ s.alive = true ∧
    Fetch.mk s.cycle true ∈ (applyEvent .tick s).pending ∧
    ∀ f ∈ s.pending, f ∈ (applyEvent .tick s).pending := by
  refine ⟨hint, reachable_interval_alive s hs hint, ?_, ?_⟩
  · simp [applyEvent]
  · intro f hf
    simp [applyEvent]
    exact Or.inl hf

/-- C5 witness: the concrete state right after the effect ran, where the
initial fetch is still in flight. -/
theorem c5_amended_tick_concurrent_with_initial_witness :
    Enabled .tick sysAfterEffect ∧ sysAfterEffect.alive = true ∧
    Fetch.mk sysAfterEffect.cycle true ∈
      (applyEvent .tick sysAfterEffect).pending ∧
    ∀ f ∈ sysAfterEffect.pending,
      f ∈ (applyEvent .tick sysAfterEffect).pending :=
  c5_amended_tick_concurrent_with_initial sysAfterEffect
    reachable_sysAfterEffect rfl

/-- C6: the initial-fetch lifecycle.  The synchronous prefix run before
the request is issued sets the status to 'loading' (and the effect that
starts a cycle leaves the app in 'loading' with the cycle's initial
request in flight); an initial-fetch attempt that succeeds ends 'ready'
with the payload replacing any prior WeatherData and the selected day
reset to `dayOrder[0] ?? null`; one that fails ends 'error' with the
captured message ('Unable to load forecast' when the thrown value is not
an Error). -/
theorem c6_initial_fetch_lifecycle (s : SysState) (a : AppState)
    (data : WeatherData) (emsg : Option String) :
    (fetchWeatherPhase1 false a).weatherStatus = .loading ∧
    (applyEvent .effectRun s).app.weatherStatus = .loading ∧
    Fetch.mk (s.cycle + 1) false ∈ (applyEvent .effectRun s).pending ∧
    (fetchWeatherAttempt false (.success data) a).weatherStatus = .ready ∧
    (fetchWeatherAttempt false (.success data) a).weatherData =
      some data ∧
    (fetchWeatherAttempt false (.success data) a).selectedDay =
      data.dayOrder.head? ∧
    (fetchWeatherAttempt false (.failure emsg) a).weatherStatus = .error ∧
    (fetchWeatherAttempt false (.failure emsg) a).weatherError =
      some (emsg.getD "Unable to load forecast") := by
  refine ⟨?_, ?_, ?_, ?_, ?_, ?_, ?_, ?_⟩ <;>
    simp [applyEvent, fetchWeatherAttempt, fetchWeatherPhase1,
      fetchWeatherResolve]

/-- C7: submitting while the trimmed query text is empty sets search
status to 'no-results', clears the result list, clears the forecast
entirely (WeatherData removed, forecast status reset to 'idle'), and
issues no network call: no geocode request is counted and the in-flight
forecast requests are untouched. -/
theorem c7_empty_query_submit (s : SysState) (geo : GeocodeOutcome)
    (hempty : jsTrim s.app.searchTerm = "") :
    (applyEvent (.submit geo) s).app.searchStatus = .noResults ∧
    (applyEvent (.submit geo) s).app.searchResults = [] ∧
    (applyEvent (.submit geo) s).app.weatherData = none ∧
    (applyEvent (.submit geo) s).app.weatherStatus = .idle ∧
    (applyEvent (.submit geo) s).geocodeCalls = s.geocodeCalls ∧
    (applyEvent (.submit geo) s).pending = s.pending := by
  refine ⟨?_, ?_, ?_, ?_, ?_, ?_⟩ <;>
    simp [applyEvent, handleSearch, hempty, handleSearchEmpty]

/-- C7 witness: a concrete state whose query text is whitespace only. -/
theorem c7_empty_query_submit_witness :
    jsTrim sysBlankQuery.app.searchTerm = "" ∧
    ((applyEvent (.submit (.success [])) sysBlankQuery).app.searchStatus =
        .noResults ∧
      (applyEvent (.submit (.success []))
          sysBlankQuery).app.searchResults = [] ∧
      (applyEvent (.submit (.success []))
          sysBlankQuery).app.weatherData = none ∧
      (applyEvent (.submit (.success []))
          sysBlankQuery).app.weatherStatus = .idle ∧
      (applyEvent (.submit (.success [])) sysBlankQuery).geocodeCalls =
        sysBlankQuery.geocodeCalls ∧
      (applyEvent (.submit (.success [])) sysBlankQuery).pending =
        sysBlankQuery.pending) :=
  ⟨by decide, c7_empty_query_submit sysBlankQuery (.success [])
    (by decide)⟩

/-- A location whose country is the empty string (the `country` field is
a required string in `LocationMatch`, and the selection handler's own
conditional anticipates a falsy value for it). -/
def locNoCountry : LocationMatch :=
  { id := "0"
    name := "Atlantis"
    admin1 := none
    country := ""
    latitude := 0
    longitude := 0
    timezone := "Etc/UTC" }

/-- C8 counterexample: for a location whose country is the empty string,
selection rewrites the query text to just "Atlantis", not to the claimed
canonical "{name}, {country}" form "Atlantis, ". -/
theorem c8_counterexample :
    (applyEvent (.selectResult locNoCountry true)
        sysInit0).app.searchTerm ≠
      locNoCountry.name ++ ", " ++ locNoCountry.country := by decide

/-- C8 (amended): selecting a result publishes a defensive copy equal to
the given location, clears the result list, resets search status to
'idle', rewrites the query text to "{name}, {country}" when the country
is nonempty and to "{name}" alone when the country is the empty string,
and (when the storage writes succeed; a storage failure is caught and
logged) persists both the location and that text. -/
theorem c8_amended_select_result (location : LocationMatch)
    (s : SysState) :
    (applyEvent (.selectResult location true) s).app.selectedLocation =
      defensiveCopy location ∧
    defensiveCopy location = location ∧
    (applyEvent (.selectResult location true) s).app.searchResults =
      [] ∧
    (applyEvent (.selectResult location true) s).app.searchStatus =
      .idle ∧
    (applyEvent (.selectResult location true) s).app.searchTerm =
      locationString location ∧
    locationString location =
      (if location.country = "" then location.name
       else location.name ++ ", " ++ location.country) ∧
    (applyEvent (.selectResult location true) s).storedLocation =
      .raw (.parsesTo (defensiveCopy location)) ∧
    (applyEvent (.selectResult location true) s).storedTerm =
      .present (locationString location) := by
  refine ⟨rfl, rfl, rfl, rfl, rfl, ?_, rfl, rfl⟩
  by_cases h : location.country = "" <;>
    simp [locationString, h, String.append_assoc]

/-- C9: loading the persisted location never raises: on absence of the
persisted value (a null read, which the empty string also falls into via
the truthiness test) or on any failure (storage read error or JSON parse
error on corrupt contents) it returns the compiled-in default location,
and otherwise it returns the parsed stored value; the matching
search-term load falls back to the default city's canonical search
string. -/
theorem c9_load_persisted_location (l : LocationMatch) :
    loadSavedLocation .missing = DEFAULT_LOCATION ∧
    loadSavedLocation .throwOnRead = DEFAULT_LOCATION ∧
    loadSavedLocation (.raw .emptyStr) = DEFAULT_LOCATION ∧
    loadSavedLocation (.raw .unparseable) = DEFAULT_LOCATION ∧
    loadSavedLocation (.raw (.parsesTo l)) = l ∧
    loadSavedSearchTerm .missing = defaultSearchTerm ∧
    loadSavedSearchTerm .throwOnRead = defaultSearchTerm ∧
    loadSavedSearchTerm (.present "") = defaultSearchTerm ∧
    defaultSearchTerm = "San Francisco, United States" := by
  refine ⟨rfl, rfl, rfl, rfl, rfl, rfl, rfl, rfl, ?_⟩
  decide

/-- C10: a successful auto-refresh attempt always ends with forecast
status 'ready', the error message cleared, and the payload installed —
for every pre-attempt state, in particular one whose status is 'error'
with a visible message from a failed initial fetch of the same cycle: a
background refresh success silently replaces the error state with fresh
data. -/
theorem c10_auto_refresh_success_clears_error (a : AppState)
    (data : WeatherData) :
    (fetchWeatherAttempt true (.success data) a).weatherStatus = .ready ∧
    (fetchWeatherAttempt true (.success data) a).weatherError = none ∧
    (fetchWeatherAttempt true (.success data) a).weatherData =
      some data := by
  refine ⟨?_, ?_, ?_⟩ <;>
    simp [fetchWeatherAttempt, fetchWeatherPhase1, fetchWeatherResolve]
